import Mathlib

/-!
Shallow embedding of the tar24 / C4ISR flight-tracking core:
the threat detection system (js/threat-detection-v2.js and the unnamed
threat-detection part), the flight tracker (js/flight-tracker.js), the
data-source manager (js/data-sources-v2.js and the unnamed data-sources
part).  JavaScript `Map`s are modelled as association lists with the
JS `Map.set` replace-or-append behaviour, JS numbers as `Int`/`Rat`,
nullable values as `Option`, and JS truthiness explicitly.
-/

/-- Association-list lookup: first entry whose key equals `k` (JS `Map.get`). -/
def alookup {α β : Type} [DecidableEq α] (l : List (α × β)) (k : α) : Option β :=
  match l with
  | [] => none
  | (a, b) :: t => if a = k then some b else alookup t k

/-- JS `Map.set`: replace the value of an existing key, else append the entry. -/
def mapSet {α β : Type} [DecidableEq α] (l : List (α × β)) (k : α) (v : β) : List (α × β) :=
  if (alookup l k).isSome then
    l.map (fun p => if p.1 = k then (k, v) else p)
  else
    l ++ [(k, v)]

/-- One normalized flight record, the shape produced by the data-source
normalizers and consumed by the tracker and the threat detectors.
Nullable JS fields are `Option`s. -/
structure FlightData where
  id : Option String
  callsign : Option String
  icao24 : Option String
  squawk : Option String
  type : String
  latitude : Rat
  longitude : Rat
  altitude : Option Int
  speed : Option Int
  heading : Option Int
deriving DecidableEq

/-- JS truthiness of a nullable string (`undefined`/`null`/`""` are falsy). -/
def truthyStr (o : Option String) : Bool :=
  match o with
  | none => false
  | some s => s ≠ ""

/-- JS truthiness of a nullable number (`undefined`/`null`/`0` are falsy). -/
def truthyInt (o : Option Int) : Bool :=
  match o with
  | none => false
  | some n => n ≠ 0

/-- JS `Math.min` on two (non-NaN) numbers, in exact rationals. -/
def ratMin (x y : Rat) : Rat := if x ≤ y then x else y

namespace TDS

/-!
Embedding of `ThreatDetectionSystem` from js/threat-detection-v2.js.
The data-retrieval placeholders of that file (`getSensitiveAreas`,
history getters, radar/emission getters) return empty data; the pattern
and anomaly lists and the stealth-detection outcome are passed to
`analyzeFlight` explicitly, exactly as `classifyThreat` receives them in
the source, and the wall-clock hour read by `assessTimeThreat` and the
`Date.now()` timestamp are explicit parameters.
-/

/-- The `thresholds` field of the constructor. -/
structure Thresholds where
  low : Int
  medium : Int
  high : Int
  critical : Int
deriving DecidableEq

/-- Constructor defaults: `{ low: 10, medium: 30, high: 60, critical: 90 }`. -/
def defaultThresholds : Thresholds := ⟨10, 30, 60, 90⟩

/-- `calculateThreatLevel(score)`. -/
def calculateThreatLevel (th : Thresholds) (score : Int) : String :=
  if score ≥ th.critical then "critical"
  else if score ≥ th.high then "high"
  else if score ≥ th.medium then "medium"
  else "low"

/-- Specification-side ordering of the four discrete levels
(low < medium < high < critical). -/
def levelRank (l : String) : Nat :=
  if l = "critical" then 3
  else if l = "high" then 2
  else if l = "medium" then 1
  else 0

/-- Weights of the patterns installed by `setupPatternRecognition`;
`classifyThreat` adds a weight only when the name is a configured pattern. -/
def patternWeight (p : String) : Option Int :=
  if p = "radar_evasion" then some 8
  else if p = "military_formation" then some 6
  else if p = "suspicious_circling" then some 5
  else if p = "stealth_approach" then some 9
  else if p = "gps_jamming" then some 7
  else if p = "unknown_aircraft" then some 4
  else none

/-- `getAnomalyWeight(anomaly)`, with the `|| 2` default. -/
def getAnomalyWeight (a : String) : Int :=
  if a = "unusual_altitude_changes" then 5
  else if a = "unusual_speed_changes" then 4
  else if a = "unusual_heading_changes" then 3
  else if a = "position_inconsistencies" then 8
  else if a = "transponder_anomalies" then 6
  else 2

/-- One entry of `getSensitiveAreas()`. -/
structure SensitiveArea where
  name : String
  latitude : Rat
  longitude : Rat
  radius : Rat
  threatLevel : Int

/-- `getSensitiveAreas()` is a placeholder returning the empty list. -/
def getSensitiveAreas : List SensitiveArea := []

/-- Score part of `assessLocationThreat(flight)`: the threat level of the
first sensitive area within its radius, else 0.  The haversine
`calculateDistance` (host `Math` trigonometry) is abstracted as the `dist`
argument; with the placeholder empty area list it is never applied. -/
def assessLocationThreatScore (dist : Rat → Rat → Rat → Rat → Rat) (f : FlightData) : Int :=
  match getSensitiveAreas.find? (fun a => decide (dist f.latitude f.longitude a.latitude a.longitude ≤ a.radius)) with
  | some a => a.threatLevel
  | none => 0

/-- Score part of `assessTimeThreat`: 3 in the suspicious-hours window
(`hour >= 23 || hour <= 5`), else 0.  `hour` is the wall-clock hour that
the source reads from `new Date().getHours()`. -/
def assessTimeThreatScore (hour : Nat) : Int :=
  if 23 ≤ hour ∨ hour ≤ 5 then 3 else 0

/-- `calculateConfidence(patterns, anomalies, score)`, in exact rationals. -/
def calculateConfidence (patterns anomalies : List String) (score : Int) : Rat :=
  ratMin ((1 : Rat)/2 + (patterns.length : Rat) * (1/10) + (anomalies.length : Rat) * (1/20)
        + ratMin ((score : Rat)/100) (3/10)) 1

/-- Result shape of `classifyThreat` (the `details` dictionary, which only
echoes the matched names, is not carried). -/
structure Classification where
  level : String
  score : Int
  confidence : Rat
deriving DecidableEq

/-- `classifyThreat(flight, patterns, anomalies)`: base score from the
aircraft type, plus configured pattern weights, anomaly weights, location
score and time-of-day score; level and confidence derived from the total. -/
def classifyThreat (f : FlightData) (patterns anomalies : List String)
    (hour : Nat) (dist : Rat → Rat → Rat → Rat → Rat) : Classification :=
  let base := (if f.type = "military" then (20 : Int) else 0)
            + (if f.type = "unknown" then 15 else 0)
  let pScore := patterns.foldl (fun acc p => acc + ((patternWeight p).getD 0)) 0
  let aScore := anomalies.foldl (fun acc a => acc + getAnomalyWeight a) 0
  let score := base + pScore + aScore + assessLocationThreatScore dist f
             + assessTimeThreatScore hour
  { level := calculateThreatLevel defaultThresholds score
    score := score
    confidence := calculateConfidence patterns anomalies score }

/-- `escalateThreatLevel`'s `levels` array. -/
def levels : List String := ["low", "medium", "high", "critical"]

/-- JS `Array.indexOf` (-1 when absent). -/
def jsIndexOfAux (l : List String) (x : String) (acc : Int) : Int :=
  match l with
  | [] => -1
  | a :: t => if a = x then acc else jsIndexOfAux t x (acc + 1)

/-- JS `Array.indexOf` over a list of strings. -/
def jsIndexOf (l : List String) (x : String) : Int := jsIndexOfAux l x 0

/-- `escalateThreatLevel(currentLevel)`. -/
def escalateThreatLevel (c : String) : String :=
  let i := jsIndexOf levels c
  let n := min (i + 1) 3
  levels.getD n.toNat ""

/-- `isSignificantThreat(level)`. -/
def isSignificantThreat (l : String) : Bool :=
  l = "medium" ∨ l = "high" ∨ l = "critical"

/-- The per-flight `analysis` object built by `analyzeFlight` (the
`details` echo dictionary is not carried). -/
structure Analysis where
  flightId : Option String
  timestamp : Int
  patterns : List String
  anomalies : List String
  threatLevel : String
  confidence : Rat
deriving DecidableEq

/-- An alert as assembled by `emitThreatAlert`. -/
structure ThreatAlert where
  id : Option String
  level : String
  confidence : Rat
  patterns : List String
  anomalies : List String
  timestamp : Int
deriving DecidableEq

/-- Mutable state of `ThreatDetectionSystem`: the `threats` map and the
`threatHistory` array. -/
structure ThreatState where
  threats : List (Option String × Analysis)
  threatHistory : List ThreatAlert
deriving DecidableEq

/-- Constructor state: empty `threats` map, empty `threatHistory`. -/
def initThreatState : ThreatState := ⟨[], []⟩

/-- `maxThreatHistory` from the constructor. -/
def maxThreatHistory : Nat := 1000

/-- `emitThreatAlert(analysis)`: push the alert onto `threatHistory`
(keeping the last `maxThreatHistory`) and emit it. -/
def emitThreatAlert (st : ThreatState) (a : Analysis) : ThreatState × ThreatAlert :=
  let t : ThreatAlert :=
    ⟨a.flightId, a.threatLevel, a.confidence, a.patterns, a.anomalies, a.timestamp⟩
  let hist := st.threatHistory ++ [t]
  let hist2 := if hist.length > maxThreatHistory then hist.drop (hist.length - maxThreatHistory) else hist
  ({ st with threatHistory := hist2 }, t)

/-- The analysis value `analyzeFlight` stores for a flight: the
classification of `classifyThreat`, with the stealth-detection outcome
appending `stealth_approach` and escalating the level. -/
def analysisOf (f : FlightData) (patterns anomalies : List String)
    (stealthDetected : Bool) (hour : Nat) (tNow : Int)
    (dist : Rat → Rat → Rat → Rat → Rat) : Analysis :=
  let c := classifyThreat f patterns anomalies hour dist
  let pats := if stealthDetected then patterns ++ ["stealth_approach"] else patterns
  let lvl := if stealthDetected then escalateThreatLevel c.level else c.level
  ⟨f.id, tNow, pats, anomalies, lvl, c.confidence⟩

/-- `analyzeFlight(flight)`: store the analysis under the flight id, and
when `isSignificantThreat` holds of the computed level, emit a threat
alert via `emitThreatAlert`.  Returns the new state and the emitted alert
(if any). -/
def analyzeFlight (st : ThreatState) (f : FlightData) (patterns anomalies : List String)
    (stealthDetected : Bool) (hour : Nat) (tNow : Int)
    (dist : Rat → Rat → Rat → Rat → Rat) : ThreatState × Option ThreatAlert :=
  let a := analysisOf f patterns anomalies stealthDetected hour tNow dist
  let st1 := { st with threats := mapSet st.threats f.id a }
  if isSignificantThreat a.threatLevel then
    let r := emitThreatAlert st1 a
    (r.1, some r.2)
  else
    (st1, none)

end TDS

namespace TDS5

/-!
Embedding of the second `ThreatDetectionSystem` (the unnamed
threat-detection part): its `calculateThreatLevel` maps a fractional
score through the `alertThresholds` of its constructor onto five levels.
-/

/-- `calculateThreatLevel(threatScore)` with the constructor's
`alertThresholds` `{ low: 0.3, medium: 0.6, high: 0.8, critical: 0.95 }`. -/
def calculateThreatLevel5 (s : Rat) : String :=
  if s ≥ 95/100 then "CRITICAL"
  else if s ≥ 8/10 then "HIGH"
  else if s ≥ 6/10 then "MEDIUM"
  else if s ≥ 3/10 then "LOW"
  else "NONE"

/-- Specification-side ordering of the five levels of this variant. -/
def levelRank5 (l : String) : Nat :=
  if l = "CRITICAL" then 4
  else if l = "HIGH" then 3
  else if l = "MEDIUM" then 2
  else if l = "LOW" then 1
  else 0

end TDS5

namespace FT

/-!
Embedding of `FlightTracker` from js/flight-tracker.js: the `flights`
map, the per-flight `flightHistory` map, the `threatFlights` set, and the
operations `addFlight`, `updateFlightData`, `addToHistory`,
`removeFlight` and `updateFlightPositions`.  `new Date()` / `Date.now()`
timestamps are the explicit `now` parameter (milliseconds). -/

/-- One entry of a flight's position history, as built by `addToHistory`. -/
structure Position where
  latitude : Rat
  longitude : Rat
  altitude : Option Int
  speed : Option Int
  heading : Option Int
  timestamp : Int
deriving DecidableEq

/-- A stored flight: the spread of the latest data plus the `firstSeen`
and `lastUpdate` timestamps set by the tracker. -/
structure FlightRec where
  data : FlightData
  firstSeen : Int
  lastUpdate : Int
deriving DecidableEq

/-- Mutable state of `FlightTracker`. -/
structure TrackerState where
  flights : List (String × FlightRec)
  flightHistory : List (String × List Position)
  threatFlights : List String
  maxHistoryLength : Nat
deriving DecidableEq

/-- Constructor state: empty maps, `maxHistoryLength = 1000`. -/
def initState : TrackerState := ⟨[], [], [], 1000⟩

/-- `removeFlight(flightId)`: delete the id from all three collections. -/
def removeFlight (st : TrackerState) (i : String) : TrackerState :=
  { st with
    flights := st.flights.filter (fun p => decide (p.1 ≠ i))
    flightHistory := st.flightHistory.filter (fun p => decide (p.1 ≠ i))
    threatFlights := st.threatFlights.filter (fun k => decide (k ≠ i)) }

/-- `addToHistory(flightId, flightData)`: no-op when the id has no history
entry; otherwise push the new position and, if the length now exceeds
`maxHistoryLength`, shift off the oldest entry. -/
def addToHistory (st : TrackerState) (i : String) (d : FlightData) (now : Int) : TrackerState :=
  match alookup st.flightHistory i with
  | none => st
  | some h =>
    let pos : Position := ⟨d.latitude, d.longitude, d.altitude, d.speed, d.heading, now⟩
    let h1 := h ++ [pos]
    let h2 := if h1.length > st.maxHistoryLength then h1.drop 1 else h1
    { st with flightHistory := mapSet st.flightHistory i h2 }

/-- `updateFlightData(flightId, newData)`: merge the new data over the
stored flight (`Object.assign`), stamp `lastUpdate`, then the source
re-checks staleness against the timestamp it just wrote. -/
def updateFlightData (st : TrackerState) (i : String) (d : FlightData) (now : Int) : TrackerState :=
  match alookup st.flights i with
  | none => st
  | some f =>
    let f2 : FlightRec := ⟨d, f.firstSeen, now⟩
    let st2 := { st with flights := mapSet st.flights i f2 }
    if now - now > 300000 then removeFlight st2 i else st2

/-- `addFlight(flightData)`: guard falsy argument or falsy id; update an
existing flight or create a new one (with empty history), then record the
position via `addToHistory`. -/
def addFlight (st : TrackerState) (fd : Option FlightData) (now : Int) : TrackerState :=
  match fd with
  | none => st
  | some d =>
    match d.id with
    | none => st
    | some i =>
      if i = "" then st
      else
        let st1 :=
          if (alookup st.flights i).isSome then
            updateFlightData st i d now
          else
            { st with
              flights := mapSet st.flights i ⟨d, now, now⟩
              flightHistory := mapSet st.flightHistory i [] }
        addToHistory st1 i d now

/-- `updateFlightPositions()`: collect the ids not updated within the
last 5 minutes (300000 ms), then `removeFlight` each. -/
def updateFlightPositions (st : TrackerState) (now : Int) : TrackerState :=
  let stale := (st.flights.filter (fun p => decide (now - p.2.lastUpdate > 300000))).map (fun p => p.1)
  stale.foldl removeFlight st

/-- `getFlights()`: the values of the `flights` map. -/
def getFlights (st : TrackerState) : List FlightRec := st.flights.map (fun p => p.2)

/-- Feeding a list of normalized flight records into the tracker, as the
application layer does with combined source data. -/
def ingest (st : TrackerState) (l : List FlightData) (now : Int) : TrackerState :=
  l.foldl (fun s d => addFlight s (some d) now) st

end FT

namespace DSM

/-!
Embedding of the classification and scoring of `DataSourceManager` in
js/data-sources-v2.js: the callsign regular expressions, `classifyAircraft`,
`isMilitaryAircraft` and `calculateThreatLevel`. -/

/-- Uppercase-letter character class `[A-Z]`. -/
def isUpperAZ (c : Char) : Bool := 'A' ≤ c && c ≤ 'Z'

/-- Digit character class `\d`. -/
def isDigit09 (c : Char) : Bool := '0' ≤ c && c ≤ '9'

/-- Full-string match of `^[A-Z]{lmin,lmax}\d{dmin,dmax}$`: since letters
and digits are disjoint, the string must be its maximal leading run of
uppercase letters followed by digits only, with both run lengths in
range. -/
def matchLettersDigits (s : String) (lmin lmax dmin dmax : Nat) : Bool :=
  let cs := s.toList
  let letters := cs.takeWhile isUpperAZ
  let rest := cs.drop letters.length
  decide (lmin ≤ letters.length) && decide (letters.length ≤ lmax) &&
  rest.all isDigit09 && decide (dmin ≤ rest.length) && decide (rest.length ≤ dmax)

/-- Full-string match of `^[A-Z]{2}\d{2}[A-Z]$`. -/
def matchL2D2L1 (s : String) : Bool :=
  match s.toList with
  | [a, b, c, d, e] => isUpperAZ a && isUpperAZ b && isDigit09 c && isDigit09 d && isUpperAZ e
  | _ => false

/-- Full-string match of `^[A-Z]{3}\d{2}$`. -/
def matchL3D2 (s : String) : Bool :=
  match s.toList with
  | [a, b, c, d, e] => isUpperAZ a && isUpperAZ b && isUpperAZ c && isDigit09 d && isDigit09 e
  | _ => false

/-- The `militaryPatterns` test of `classifyAircraft`/`isMilitaryAircraft`
applied to a callsign. -/
def matchesMilitaryPatterns (cs : String) : Bool :=
  matchLettersDigits cs 2 3 3 4 || matchL2D2L1 cs || matchL3D2 cs

/-- The `commercialPatterns` test of `classifyAircraft`. -/
def matchesCommercialPatterns (cs : String) : Bool :=
  matchLettersDigits cs 2 3 3 4 || matchLettersDigits cs 3 3 1 4

/-- `classifyAircraft(flight)`: military callsign patterns first, then
commercial, then the low-and-slow UAV envelope, else `unknown`. -/
def classifyAircraft (f : FlightData) : String :=
  if truthyStr f.callsign && matchesMilitaryPatterns (f.callsign.getD "") then "military"
  else if truthyStr f.callsign && matchesCommercialPatterns (f.callsign.getD "") then "commercial"
  else if truthyInt f.altitude && decide (f.altitude.getD 0 < 5000)
       && truthyInt f.speed && decide (f.speed.getD 0 < 100) then "uav"
  else "unknown"

/-- The `militarySquawks` list. -/
def militarySquawks : List String := ["7500", "7600", "7700", "7777"]

/-- `isMilitaryAircraft(flight)`: military callsign pattern, or the
high-altitude/high-speed envelope, or a military squawk code. -/
def isMilitaryAircraft (f : FlightData) : Bool :=
  (truthyStr f.callsign && matchesMilitaryPatterns (f.callsign.getD ""))
  || (truthyInt f.altitude && truthyInt f.speed
      && decide (f.altitude.getD 0 > 30000) && decide (f.speed.getD 0 > 400))
  || (truthyStr f.squawk && militarySquawks.contains (f.squawk.getD ""))

/-- The `threatScore` accumulated by `calculateThreatLevel(flight)`. -/
def threatScore (f : FlightData) : Int :=
  (if isMilitaryAircraft f then 3 else 0)
  + (if !truthyStr f.callsign && !truthyStr f.icao24 then 2 else 0)
  + (if truthyInt f.altitude && (decide (f.altitude.getD 0 < 1000) || decide (f.altitude.getD 0 > 45000)) then 1 else 0)
  + (if truthyInt f.speed && (decide (f.speed.getD 0 < 50) || decide (f.speed.getD 0 > 600)) then 1 else 0)

/-- `calculateThreatLevel(flight)`: map the accumulated score through the
breakpoints `>=5` critical, `>=3` high, `>=1` medium, else low. -/
def calculateThreatLevel (f : FlightData) : String :=
  let s := threatScore f
  if s ≥ 5 then "critical"
  else if s ≥ 3 then "high"
  else if s ≥ 1 then "medium"
  else "low"

end DSM

namespace DSMgr

/-!
Embedding of the rate-limiting path of the unnamed `DataSourceManager`
part: `initializeSources` sets `this.requestCounters[sourceKey] = 0` (the
number zero), while `isRateLimited` reads `counter.lastReset` and
`counter.count` and executes `counter.count++`, which expects a
`{count, lastReset}` object.  JS semantics of the mismatch are encoded:
a property read on a primitive number yields `undefined`, so both the
window-reset comparison (`now - undefined`, i.e. `NaN > 60000`) and the
limit comparison (`undefined >= max`) are false, and the property write
`counter.count++` on a primitive throws a `TypeError` in the strict-mode
class body. -/

/-- The value stored in `requestCounters` for a source: either the number
written by `initializeSources`, or the `{count, lastReset}` object that
`isRateLimited` expects. -/
inductive JSCounter where
  | num (n : Int)
  | obj (count : Int) (lastReset : Int)
deriving DecidableEq

/-- `isRateLimited(sourceKey)` acting on the counter for the source:
returns the boolean and the updated counter, or throws (`Except.error`). -/
def isRateLimited (counter : JSCounter) (now maxRequests : Int) : Except Unit (Bool × JSCounter) :=
  match counter with
  | .num _ =>
    -- counter.lastReset and counter.count read as undefined: both
    -- comparisons are false, then counter.count++ throws TypeError.
    .error ()
  | .obj count lastReset =>
    let c := if now - lastReset > 60000 then (0, now) else (count, lastReset)
    if c.1 ≥ maxRequests then .ok (true, .obj c.1 c.2)
    else .ok (false, .obj (c.1 + 1) c.2)

/-- Per-source state touched by `updateSourceData`. -/
structure SourceState where
  active : Bool
  errorCount : Nat
  counter : JSCounter
  lastData : Option (List FlightData)
deriving DecidableEq

/-- A source's state right after the constructor ran `initializeSources`
(`requestCounters[sourceKey] = 0`) and the source was activated. -/
def initSourceState : SourceState := ⟨true, 0, .num 0, none⟩

/-- `updateSourceData(sourceKey)`: skip inactive sources; inside the
`try`, consult `isRateLimited` and return silently when limited;
otherwise fetch (outcome supplied as `fetch`) and store the data; any
exception lands in the `catch`, which increments `errorCount`.  The
second component records whether a fetch was executed. -/
def updateSourceData (st : SourceState) (now maxRequests : Int)
    (fetch : Except Unit (List FlightData)) : SourceState × Bool :=
  if st.active then
    match isRateLimited st.counter now maxRequests with
    | .error _ => ({ st with errorCount := st.errorCount + 1 }, false)
    | .ok (true, c) => ({ st with counter := c }, false)
    | .ok (false, c) =>
      match fetch with
      | .ok data => ({ st with counter := c, lastData := some data }, true)
      | .error _ => ({ st with counter := c, errorCount := st.errorCount + 1 }, true)
  else (st, false)

/-- `getCombinedData()` flight aggregation: concatenate the `lastData`
flight lists of the active sources, in order; no merging of any kind. -/
def getCombinedFlights (sources : List (Option (List FlightData))) : List FlightData :=
  sources.foldl (fun acc s => match s with | some fl => acc ++ fl | none => acc) []

end DSMgr

/-!
Concrete inputs used to instantiate the theorems below.
-/

/-- A distance function standing in for the haversine; irrelevant because
the sensitive-area list is empty. -/
def zeroDist : Rat → Rat → Rat → Rat → Rat := fun _ _ _ _ => 0

/-- A military flight used for the two-cycle scoring scenario. -/
def scenFlight : FlightData :=
  ⟨some "SCN1", some "MIL1234", some "AE0001", none, "military", 35, 51, some 25000, some 450, some 90⟩

/-- Patterns for a scoring pass with total score 20 + 5 = 25. -/
def scenPats25 : List String := ["suspicious_circling"]

/-- Patterns for a scoring pass with pattern score 8+6+5+7+4 = 30. -/
def scenPats65 : List String :=
  ["radar_evasion", "military_formation", "suspicious_circling", "gps_jamming", "unknown_aircraft"]

/-- Anomalies adding 8+4+3 = 15, for a total score of 20+30+15 = 65. -/
def scenAnoms65 : List String :=
  ["position_inconsistencies", "unusual_speed_changes", "unusual_heading_changes"]

/-- First scoring cycle of the scenario: score 25. -/
def scenRun1 : TDS.ThreatState × Option TDS.ThreatAlert :=
  TDS.analyzeFlight TDS.initThreatState scenFlight scenPats25 [] false 12 0 zeroDist

/-- Second scoring cycle of the scenario: score 65 on the same flight. -/
def scenRun2 : TDS.ThreatState × Option TDS.ThreatAlert :=
  TDS.analyzeFlight scenRun1.1 scenFlight scenPats65 scenAnoms65 false 12 2000 zeroDist

/-- A military flight whose score stays at 20 + 5 + 7 = 32 (medium). -/
def ceFlight : FlightData :=
  ⟨some "CE1", some "MIL22", some "AE0002", none, "military", 36, 50, some 20000, some 400, some 45⟩

/-- Patterns putting `ceFlight` at score 32 on every pass. -/
def cePats : List String := ["suspicious_circling", "gps_jamming"]

/-- First pass over `ceFlight`. -/
def ceRun1 : TDS.ThreatState × Option TDS.ThreatAlert :=
  TDS.analyzeFlight TDS.initThreatState ceFlight cePats [] false 12 0 zeroDist

/-- Second, identical pass over `ceFlight` (level unchanged). -/
def ceRun2 : TDS.ThreatState × Option TDS.ThreatAlert :=
  TDS.analyzeFlight ceRun1.1 ceFlight cePats [] false 12 2000 zeroDist

/-- An unknown-type flight scoring 15 + 8 + 4 + 6 = 33 (medium). -/
def unkFlight : FlightData :=
  ⟨some "UNK1", none, none, none, "unknown", 10, 20, some 12000, some 300, some 180⟩

/-- Patterns for `unkFlight`. -/
def unkPats : List String := ["radar_evasion", "unknown_aircraft"]

/-- Anomalies for `unkFlight`. -/
def unkAnoms : List String := ["transponder_anomalies"]

/-- First scoring run over the unchanged `unkFlight` snapshot. -/
def unkRun1 : TDS.ThreatState × Option TDS.ThreatAlert :=
  TDS.analyzeFlight TDS.initThreatState unkFlight unkPats unkAnoms false 12 0 zeroDist

/-- Second scoring run over the same unchanged snapshot and inputs. -/
def unkRun2 : TDS.ThreatState × Option TDS.ThreatAlert :=
  TDS.analyzeFlight unkRun1.1 unkFlight unkPats unkAnoms false 12 0 zeroDist

/-- Detection of one physical aircraft as reported by the first source. -/
def detA : FlightData :=
  ⟨some "OSKY1", some "MIL1234", some "AE0001", none, "military", 35, 51, some 25000, some 450, some 90⟩

/-- Detection of the same physical aircraft one second later from a second
source: same callsign, position 0.001° away, but a different
provider-native identifier. -/
def detB : FlightData :=
  ⟨some "ADSB7", some "MIL1234", none, none, "military", 35001/1000, 51001/1000, some 25000, some 450, some 90⟩

/-- Flight data used to build a stale track. -/
def staleFlightData : FlightData :=
  ⟨some "ST1", some "ABC123", some "AB0001", none, "commercial", 40, 30, some 35000, some 480, some 270⟩

/-- Tracker holding one flight last updated at time 0. -/
def staleState : FT.TrackerState := FT.addFlight FT.initState (some staleFlightData) 0

/-- The record stored for `staleFlightData` at time 0. -/
def staleRec : FT.FlightRec := ⟨staleFlightData, 0, 0⟩

/-- Flight data for the history-cap experiments. -/
def capFlightData : FlightData :=
  ⟨some "H1", none, none, none, "unknown", 0, 0, none, none, none⟩

/-- The position `addToHistory` derives from `capFlightData` at time 0. -/
def capPos : FT.Position := ⟨0, 0, none, none, none, 0⟩

/-- Tracker after 101 insertions of `capFlightData`. -/
def capState101 : FT.TrackerState :=
  (List.replicate 101 ()).foldl (fun s _ => FT.addFlight s (some capFlightData) 0) FT.initState

/-- A tracker at its history cap (cap 1, one stored position). -/
def stCap : FT.TrackerState := ⟨[], [("K", [capPos])], [], 1⟩

/-- The detection of the military-classification scenario: callsign
`MIL1234`, altitude 25000, speed 450. -/
def mil1234 : FlightData :=
  ⟨some "ML1", some "MIL1234", some "AE01CE", none, "", 35, 51, some 25000, some 450, some 90⟩

/-!
Helper lemmas about the association-list operations.
-/

theorem alookup_nil {α β : Type} [DecidableEq α] (k : α) :
    alookup ([] : List (α × β)) k = none := rfl

theorem alookup_cons {α β : Type} [DecidableEq α] (a : α) (b : β) (t : List (α × β)) (k : α) :
    alookup ((a, b) :: t) k = if a = k then some b else alookup t k := rfl

theorem alookup_append_some {α β : Type} [DecidableEq α] {l : List (α × β)} (m : List (α × β))
    {k : α} {v : β} (h : alookup l k = some v) : alookup (l ++ m) k = some v := by
  induction l with
  | nil => simp [alookup] at h
  | cons p t ih =>
    obtain ⟨a, b⟩ := p
    rw [alookup_cons] at h
    rw [List.cons_append, alookup_cons]
    by_cases hak : a = k
    · rw [if_pos hak] at h ⊢; exact h
    · rw [if_neg hak] at h ⊢; exact ih h

theorem alookup_append_none {α β : Type} [DecidableEq α] {l : List (α × β)} (m : List (α × β))
    {k : α} (h : alookup l k = none) : alookup (l ++ m) k = alookup m k := by
  induction l with
  | nil => rfl
  | cons p t ih =>
    obtain ⟨a, b⟩ := p
    rw [alookup_cons] at h
    rw [List.cons_append, alookup_cons]
    by_cases hak : a = k
    · rw [if_pos hak] at h; exact absurd h (by simp)
    · rw [if_neg hak] at h ⊢; exact ih h

theorem alookup_map_replace_ne {α β : Type} [DecidableEq α] (l : List (α × β)) (k k' : α)
    (v : β) (h : k' ≠ k) :
    alookup (l.map (fun p => if p.1 = k then (k, v) else p)) k' = alookup l k' := by
  induction l with
  | nil => rfl
  | cons p t ih =>
    obtain ⟨a, b⟩ := p
    simp only [List.map_cons]
    by_cases hak : a = k
    · have hkk' : ¬ (k = k') := fun he => h he.symm
      have hak' : ¬ (a = k') := fun he => hkk' (hak.symm.trans he)
      rw [if_pos hak, alookup_cons, if_neg hkk', ih, alookup_cons, if_neg hak']
    · rw [if_neg hak, alookup_cons, alookup_cons, ih]

theorem alookup_map_replace_self {α β : Type} [DecidableEq α] (l : List (α × β)) (k : α)
    (v : β) (h : (alookup l k).isSome) :
    alookup (l.map (fun p => if p.1 = k then (k, v) else p)) k = some v := by
  induction l with
  | nil => simp [alookup] at h
  | cons p t ih =>
    obtain ⟨a, b⟩ := p
    simp only [List.map_cons]
    by_cases hak : a = k
    · rw [if_pos hak, alookup_cons, if_pos rfl]
    · rw [if_neg hak, alookup_cons, if_neg hak]
      rw [alookup_cons, if_neg hak] at h
      exact ih h

theorem alookup_mapSet {α β : Type} [DecidableEq α] (l : List (α × β)) (k k' : α) (v : β) :
    alookup (mapSet l k v) k' = if k' = k then some v else alookup l k' := by
  unfold mapSet
  by_cases hs : (alookup l k).isSome
  · rw [if_pos hs]
    by_cases hk : k' = k
    · subst hk; rw [if_pos rfl, alookup_map_replace_self _ _ _ hs]
    · rw [if_neg hk, alookup_map_replace_ne _ _ _ _ hk]
  · rw [if_neg hs]
    have hnone : alookup l k = none := by
      cases h : alookup l k with
      | none => rfl
      | some b => rw [h] at hs; simp at hs
    by_cases hk : k' = k
    · subst hk
      rw [if_pos rfl, alookup_append_none _ hnone, alookup_cons, if_pos rfl]
    · rw [if_neg hk]
      cases h : alookup l k' with
      | some b => exact alookup_append_some _ h
      | none =>
        rw [alookup_append_none _ h, alookup_cons, if_neg (fun he => hk he.symm)]
        rfl

theorem mapSet_length_of_isSome {α β : Type} [DecidableEq α] (l : List (α × β)) (k : α) (v : β)
    (h : (alookup l k).isSome) : (mapSet l k v).length = l.length := by
  unfold mapSet
  rw [if_pos h, List.length_map]

theorem mapSet_length_of_none {α β : Type} [DecidableEq α] (l : List (α × β)) (k : α) (v : β)
    (h : alookup l k = none) : (mapSet l k v).length = l.length + 1 := by
  unfold mapSet
  rw [h]
  simp

theorem alookup_filter_ne {α β : Type} [DecidableEq α] (l : List (α × β)) (i k : α) :
    alookup (l.filter (fun p => decide (p.1 ≠ i))) k = if k = i then none else alookup l k := by
  induction l with
  | nil => simp [alookup]
  | cons p t ih =>
    obtain ⟨a, b⟩ := p
    by_cases hai : a = i
    · have hf : ¬ ((decide ((a, b).1 ≠ i)) = true) := by simp [hai]
      rw [List.filter_cons, if_neg hf, ih]
      by_cases hk : k = i
      · rw [if_pos hk, if_pos hk]
      · rw [if_neg hk, if_neg hk, alookup_cons, if_neg (fun he => hk (he.symm.trans hai))]
    · have hf : (decide ((a, b).1 ≠ i)) = true := by simp [hai]
      rw [List.filter_cons, if_pos hf, alookup_cons]
      by_cases hak : a = k
      · have hk : ¬ (k = i) := fun he => hai (hak.trans he)
        rw [if_pos hak, if_neg hk, alookup_cons, if_pos hak]
      · rw [if_neg hak, ih]
        by_cases hk : k = i
        · rw [if_pos hk, if_pos hk]
        · rw [if_neg hk, if_neg hk, alookup_cons, if_neg hak]

theorem alookup_mem {α β : Type} [DecidableEq α] {l : List (α × β)} {k : α} {v : β}
    (h : alookup l k = some v) : (k, v) ∈ l := by
  induction l with
  | nil => simp [alookup] at h
  | cons p t ih =>
    obtain ⟨a, b⟩ := p
    rw [alookup_cons] at h
    by_cases hak : a = k
    · rw [if_pos hak] at h
      subst hak
      cases h
      exact List.mem_cons_self _ _
    · rw [if_neg hak] at h
      exact List.mem_cons_of_mem _ (ih h)

theorem alookup_eq_none_iff {α β : Type} [DecidableEq α] (l : List (α × β)) (k : α) :
    alookup l k = none ↔ ∀ p ∈ l, p.1 ≠ k := by
  induction l with
  | nil => simp [alookup]
  | cons p t ih =>
    obtain ⟨a, b⟩ := p
    rw [alookup_cons]
    by_cases hak : a = k
    · subst hak
      simp [ih]
    · simp [hak, ih]

/-!
Structural lemmas about the tracker operations.
-/

theorem removeFlight_flights (st : FT.TrackerState) (i : String) :
    (FT.removeFlight st i).flights = st.flights.filter (fun p => decide (p.1 ≠ i)) := rfl

theorem removeFlight_maxHistory (st : FT.TrackerState) (i : String) :
    (FT.removeFlight st i).maxHistoryLength = st.maxHistoryLength := rfl

theorem addToHistory_flights (st : FT.TrackerState) (i : String) (d : FlightData) (now : Int) :
    (FT.addToHistory st i d now).flights = st.flights := by
  unfold FT.addToHistory
  split <;> rfl

theorem addToHistory_maxHistory (st : FT.TrackerState) (i : String) (d : FlightData) (now : Int) :
    (FT.addToHistory st i d now).maxHistoryLength = st.maxHistoryLength := by
  unfold FT.addToHistory
  split <;> rfl

theorem updateFlightData_not_stale (now : Int) : ¬ (now - now > 300000) := by omega

theorem updateFlightData_flightHistory (st : FT.TrackerState) (i : String) (d : FlightData)
    (now : Int) : (FT.updateFlightData st i d now).flightHistory = st.flightHistory := by
  unfold FT.updateFlightData
  split
  · rfl
  · rw [if_neg (updateFlightData_not_stale now)]

theorem updateFlightData_maxHistory (st : FT.TrackerState) (i : String) (d : FlightData)
    (now : Int) : (FT.updateFlightData st i d now).maxHistoryLength = st.maxHistoryLength := by
  unfold FT.updateFlightData
  split
  · rfl
  · rw [if_neg (updateFlightData_not_stale now)]

theorem updateFlightData_flights_of_some (st : FT.TrackerState) (i : String) (d : FlightData)
    (now : Int) (f : FT.FlightRec) (h : alookup st.flights i = some f) :
    (FT.updateFlightData st i d now).flights = mapSet st.flights i ⟨d, f.firstSeen, now⟩ := by
  unfold FT.updateFlightData
  rw [h]
  simp only [if_neg (updateFlightData_not_stale now)]

theorem addFlight_flights_new (st : FT.TrackerState) (d : FlightData) (i : String) (now : Int)
    (hid : d.id = some i) (hne : i ≠ "") (h : alookup st.flights i = none) :
    (FT.addFlight st (some d) now).flights = st.flights ++ [(i, ⟨d, now, now⟩)] := by
  simp only [FT.addFlight, hid, if_neg hne, addToHistory_flights, h, Option.isSome_none,
    Bool.false_eq_true, if_false]
  unfold mapSet
  rw [h]
  simp

theorem addFlight_flights_existing (st : FT.TrackerState) (d : FlightData) (i : String)
    (now : Int) (f : FT.FlightRec) (hid : d.id = some i) (hne : i ≠ "")
    (h : alookup st.flights i = some f) :
    (FT.addFlight st (some d) now).flights = mapSet st.flights i ⟨d, f.firstSeen, now⟩ := by
  simp only [FT.addFlight, hid, if_neg hne, addToHistory_flights, h, Option.isSome_some, if_true]
  exact updateFlightData_flights_of_some st i d now f h

theorem addFlight_maxHistory (st : FT.TrackerState) (fd : Option FlightData) (now : Int) :
    (FT.addFlight st fd now).maxHistoryLength = st.maxHistoryLength := by
  cases fd with
  | none => rfl
  | some d =>
    cases hid : d.id with
    | none => simp only [FT.addFlight, hid]
    | some i =>
      simp only [FT.addFlight, hid]
      by_cases hne : i = ""
      · rw [if_pos hne]
      · simp only [if_neg hne, addToHistory_maxHistory]
        by_cases hs : (alookup st.flights i).isSome = true
        · simp only [if_pos hs, updateFlightData_maxHistory]
        · simp only [if_neg hs]

theorem addToHistory_hist_bound (st : FT.TrackerState) (i : String) (d : FlightData) (now : Int)
    (hb : ∀ k h, alookup st.flightHistory k = some h → h.length ≤ st.maxHistoryLength) :
    ∀ k h, alookup ((FT.addToHistory st i d now).flightHistory) k = some h →
      h.length ≤ st.maxHistoryLength := by
  intro k h hk
  unfold FT.addToHistory at hk
  cases hh : alookup st.flightHistory i with
  | none =>
    rw [hh] at hk
    exact hb k h hk
  | some h0 =>
    rw [hh] at hk
    simp only [alookup_mapSet] at hk
    by_cases hki : k = i
    · rw [if_pos hki] at hk
      have hlen := hb i h0 hh
      cases hk
      by_cases hgt : (h0 ++ [(⟨d.latitude, d.longitude, d.altitude, d.speed, d.heading, now⟩ : FT.Position)]).length > st.maxHistoryLength
      · rw [if_pos hgt]
        simp only [List.length_drop, List.length_append, List.length_singleton]
        omega
      · rw [if_neg hgt]
        simp only [List.length_append, List.length_singleton] at hgt ⊢
        omega
    · rw [if_neg hki] at hk
      exact hb k h hk

theorem addFlight_hist_bound (st : FT.TrackerState) (fd : Option FlightData) (now : Int)
    (hb : ∀ k h, alookup st.flightHistory k = some h → h.length ≤ st.maxHistoryLength) :
    ∀ k h, alookup ((FT.addFlight st fd now).flightHistory) k = some h →
      h.length ≤ st.maxHistoryLength := by
  cases fd with
  | none => exact hb
  | some d =>
    cases hid : d.id with
    | none => simp only [FT.addFlight, hid]; exact hb
    | some i =>
      simp only [FT.addFlight, hid]
      by_cases hne : i = ""
      · rw [if_pos hne]; exact hb
      · simp only [if_neg hne]
        by_cases hs : (alookup st.flights i).isSome = true
        · simp only [if_pos hs]
          have hb2 : ∀ k h, alookup ((FT.updateFlightData st i d now).flightHistory) k = some h →
              h.length ≤ (FT.updateFlightData st i d now).maxHistoryLength := by
            rw [updateFlightData_flightHistory, updateFlightData_maxHistory]
            exact hb
          have := addToHistory_hist_bound (FT.updateFlightData st i d now) i d now hb2
          rw [updateFlightData_maxHistory] at this
          exact this
        · simp only [if_neg hs]
          set st1 : FT.TrackerState :=
            { st with
              flights := mapSet st.flights i ⟨d, now, now⟩
              flightHistory := mapSet st.flightHistory i [] } with hst1
          have hb2 : ∀ k h, alookup st1.flightHistory k = some h →
              h.length ≤ st1.maxHistoryLength := by
            intro k h hk
            rw [hst1] at hk
            simp only [alookup_mapSet] at hk
            by_cases hki : k = i
            · rw [if_pos hki] at hk
              cases hk
              simp
            · rw [if_neg hki] at hk
              exact hb k h hk
          exact addToHistory_hist_bound st1 i d now hb2

theorem foldl_addFlight_maxHistory (ops : List (Option FlightData × Int)) :
    ∀ st : FT.TrackerState,
      ((ops.foldl (fun s p => FT.addFlight s p.1 p.2) st)).maxHistoryLength
        = st.maxHistoryLength := by
  induction ops with
  | nil => intro st; rfl
  | cons p t ih =>
    intro st
    rw [List.foldl_cons, ih, addFlight_maxHistory]

theorem foldl_addFlight_hist_bound (ops : List (Option FlightData × Int)) :
    ∀ st : FT.TrackerState,
      (∀ k h, alookup st.flightHistory k = some h → h.length ≤ st.maxHistoryLength) →
      ∀ k h, alookup ((ops.foldl (fun s p => FT.addFlight s p.1 p.2) st).flightHistory) k = some h →
        h.length ≤ st.maxHistoryLength := by
  induction ops with
  | nil => intro st hb; exact hb
  | cons p t ih =>
    intro st hb
    rw [List.foldl_cons]
    have hb2 := addFlight_hist_bound st p.1 p.2 hb
    rw [← addFlight_maxHistory st p.1 p.2] at hb2
    have := ih (FT.addFlight st p.1 p.2) hb2
    rw [addFlight_maxHistory] at this
    exact this

theorem foldl_removeFlight_flights (ids : List String) :
    ∀ (st : FT.TrackerState) (k : String),
      alookup ((ids.foldl FT.removeFlight st).flights) k
        = if k ∈ ids then none else alookup st.flights k := by
  induction ids with
  | nil => intro st k; simp
  | cons a t ih =>
    intro st k
    rw [List.foldl_cons, ih]
    by_cases h2 : k ∈ t
    · simp [h2]
    · rw [if_neg h2, removeFlight_flights, alookup_filter_ne]
      by_cases hka : k = a
      · simp [hka]
      · simp [hka, h2, List.mem_cons]

/-!
Claim theorems.
-/

/-- C2: the score-to-level mapping is a deterministic, monotonic step
function: for any two scores s1 < s2 mapped under the same breakpoints,
the level of s1 is at most the level of s2 (low < medium < high <
critical), for the `calculateThreatLevel` of the main threat-detection
system under arbitrary thresholds, and for the five-level variant of the
second threat-detection system. -/
theorem calculateThreatLevel_monotone :
    (∀ (th : TDS.Thresholds) (s1 s2 : Int), s1 < s2 →
       TDS.levelRank (TDS.calculateThreatLevel th s1)
         ≤ TDS.levelRank (TDS.calculateThreatLevel th s2))
    ∧ (∀ s1 s2 : Rat, s1 < s2 →
       TDS5.levelRank5 (TDS5.calculateThreatLevel5 s1)
         ≤ TDS5.levelRank5 (TDS5.calculateThreatLevel5 s2)) := by
  constructor
  · intro th s1 s2 hlt
    simp only [TDS.calculateThreatLevel]
    split_ifs <;> first | decide | (exfalso; omega)
  · intro s1 s2 hlt
    simp only [TDS5.calculateThreatLevel5]
    split_ifs <;> first | decide | (exfalso; linarith)

/-- Witness for C2: instantiation at scores 25 < 65 under the default
breakpoints. -/
theorem calculateThreatLevel_monotone_witness :
    TDS.levelRank (TDS.calculateThreatLevel TDS.defaultThresholds 25)
      ≤ TDS.levelRank (TDS.calculateThreatLevel TDS.defaultThresholds 65) :=
  calculateThreatLevel_monotone.1 TDS.defaultThresholds 25 65 (by decide)

/-- C9: `escalateThreatLevel` maps each of the four levels to the next
one up, keeps `critical` fixed, and never returns a level strictly below
its input on those four levels. -/
theorem escalateThreatLevel_steps_up :
    TDS.escalateThreatLevel "low" = "medium" ∧
    TDS.escalateThreatLevel "medium" = "high" ∧
    TDS.escalateThreatLevel "high" = "critical" ∧
    TDS.escalateThreatLevel "critical" = "critical" ∧
    ∀ l ∈ TDS.levels, TDS.levelRank l ≤ TDS.levelRank (TDS.escalateThreatLevel l) := by
  refine ⟨by decide, by decide, by decide, by decide, ?_⟩
  intro l hl
  simp only [TDS.levels, List.mem_cons, List.not_mem_nil, or_false] at hl
  rcases hl with rfl | rfl | rfl | rfl <;> decide

/-- Witness for C9: the non-decrease conjunct instantiated at `high`. -/
theorem escalateThreatLevel_steps_up_witness :
    TDS.levelRank "high" ≤ TDS.levelRank (TDS.escalateThreatLevel "high") :=
  escalateThreatLevel_steps_up.2.2.2.2 "high" (by decide)

/-- C8: because `initializeSources` stores the number 0 in
`requestCounters` while `isRateLimited` expects a `{count, lastReset}`
object, every `updateSourceData` poll on a fresh manager aborts with a
TypeError at `counter.count++` inside the `try`, so the catch block
increments `errorCount` and no fetch runs — for every clock value, rate
limit and fetch outcome. -/
theorem updateSourceData_initial_counter_errors :
    ∀ (now maxRequests : Int) (fetch : Except Unit (List FlightData)),
      DSMgr.updateSourceData DSMgr.initSourceState now maxRequests fetch
        = ({ DSMgr.initSourceState with errorCount := 1 }, false) := by
  intro now maxRequests fetch
  rfl

/-- C10: `addFlight` with a nullish argument or a missing/empty id leaves
the entire tracker state (flights, history, threat set) unchanged. -/
theorem addFlight_nullish_noop :
    ∀ (st : FT.TrackerState) (fd : Option FlightData) (now : Int),
      (fd = none ∨ ∃ d, fd = some d ∧ (d.id = none ∨ d.id = some "")) →
      FT.addFlight st fd now = st := by
  intro st fd now h
  rcases h with rfl | ⟨d, rfl, hd | hd⟩
  · rfl
  · simp [FT.addFlight, hd]
  · simp [FT.addFlight, hd]

/-- Witness for C10: instantiation at the null argument. -/
theorem addFlight_nullish_noop_witness :
    FT.addFlight FT.initState none 0 = FT.initState :=
  addFlight_nullish_noop FT.initState none 0 (Or.inl rfl)

/-- C7 (amended): the detection with callsign `MIL1234`, altitude 25000
and speed 450 is classified `military`, and the threat score computed for
it by `calculateThreatLevel` of the data-source manager is 3 — but the
resulting level is `high` under that function's breakpoints (score ≥ 3),
not `low`. -/
theorem mil1234_military_score3_level_high :
    DSM.classifyAircraft mil1234 = "military" ∧ DSM.threatScore mil1234 = 3 ∧
    DSM.calculateThreatLevel mil1234 = "high" := by decide

/-- Counterexample for C7: on the very input of the scenario the code
path that yields score 3 assigns a level different from `low`. -/
theorem mil1234_level_not_low :
    DSM.threatScore mil1234 = 3 ∧ ¬ (DSM.calculateThreatLevel mil1234 = "low") := by decide

/-- C1 (amended): on every scoring pass, `analyzeFlight` emits an Alert
iff the level computed on that pass is medium, high or critical,
regardless of any previous level; in the two-cycle scenario where the
score rises from 25 to 65 under the default breakpoints, the first pass
computes level `low` and emits no Alert, and the second computes level
`high` and emits exactly one Alert carrying level `high`. -/
theorem analyzeFlight_alert_iff_significant :
    (∀ (st : TDS.ThreatState) (f : FlightData) (patterns anomalies : List String)
       (stealth : Bool) (hour : Nat) (tNow : Int) (dist : Rat → Rat → Rat → Rat → Rat),
       ((TDS.analyzeFlight st f patterns anomalies stealth hour tNow dist).2.isSome = true ↔
         TDS.isSignificantThreat
           (TDS.analysisOf f patterns anomalies stealth hour tNow dist).threatLevel = true))
    ∧ scenRun1.2 = none
    ∧ scenRun2.2.map (fun t => t.level) = some "high" := by
  refine ⟨?_, by decide, by decide⟩
  intro st f patterns anomalies stealth hour tNow dist
  by_cases h : TDS.isSignificantThreat
      (TDS.analysisOf f patterns anomalies stealth hour tNow dist).threatLevel = true
  · simp [TDS.analyzeFlight, h]
  · simp [TDS.analyzeFlight, h]

/-- Counterexample for C1: two consecutive passes over the same flight
with identical inputs both compute level `medium`; the second pass merely
re-confirms the unchanged stored level, yet it still emits an Alert. -/
theorem second_unchanged_medium_pass_emits :
    (alookup ceRun1.1.threats (some "CE1")).map (fun a => a.threatLevel) = some "medium"
    ∧ (alookup ceRun2.1.threats (some "CE1")).map (fun a => a.threatLevel) = some "medium"
    ∧ ceRun1.2.map (fun t => t.level) = some "medium"
    ∧ ceRun2.2.map (fun t => t.level) = some "medium" := by decide

/-- C3 (amended): re-running the scoring engine on an unchanged Track
snapshot with the wall-clock hour and timestamp held fixed stores an
identical ThreatAssessment and yields exactly the same emission as the
first run; in particular the second run emits no Alert precisely when the
computed level is below medium. -/
theorem rescore_unchanged_snapshot :
    ∀ (st : TDS.ThreatState) (f : FlightData) (patterns anomalies : List String)
      (stealth : Bool) (hour : Nat) (tNow : Int) (dist : Rat → Rat → Rat → Rat → Rat),
      (alookup (TDS.analyzeFlight (TDS.analyzeFlight st f patterns anomalies stealth hour tNow dist).1
          f patterns anomalies stealth hour tNow dist).1.threats f.id
        = alookup (TDS.analyzeFlight st f patterns anomalies stealth hour tNow dist).1.threats f.id)
      ∧ ((TDS.analyzeFlight (TDS.analyzeFlight st f patterns anomalies stealth hour tNow dist).1
          f patterns anomalies stealth hour tNow dist).2
        = (TDS.analyzeFlight st f patterns anomalies stealth hour tNow dist).2)
      ∧ (((TDS.analyzeFlight (TDS.analyzeFlight st f patterns anomalies stealth hour tNow dist).1
          f patterns anomalies stealth hour tNow dist).2 = none) ↔
          TDS.isSignificantThreat
            (TDS.analysisOf f patterns anomalies stealth hour tNow dist).threatLevel = false) := by
  intro st f patterns anomalies stealth hour tNow dist
  by_cases h : TDS.isSignificantThreat
      (TDS.analysisOf f patterns anomalies stealth hour tNow dist).threatLevel = true
  · simp [TDS.analyzeFlight, TDS.emitThreatAlert, h, alookup_mapSet]
  · rw [Bool.not_eq_true] at h
    simp [TDS.analyzeFlight, h, alookup_mapSet]

/-- Counterexample for C3: one unchanged snapshot scored twice stores the
identical assessment, yet the second run emits a new Alert — the alert
history grows from one entry to two. -/
theorem second_run_emits_duplicate_alert :
    (alookup unkRun2.1.threats (some "UNK1") = alookup unkRun1.1.threats (some "UNK1"))
    ∧ unkRun1.1.threatHistory.length = 1
    ∧ unkRun2.1.threatHistory.length = 2
    ∧ unkRun2.2.map (fun t => t.level) = some "medium" :=
  ⟨rfl, by decide, by decide, by decide⟩

/-- C4 (amended): ingesting two detections into an empty tracker produces
one Track iff they carry the same (truthy) id and two Tracks otherwise;
the pipeline never merges by position or callsign across sources. -/
theorem two_detections_track_count :
    ∀ (d1 d2 : FlightData) (i j : String) (n1 n2 : Int),
      d1.id = some i → i ≠ "" → d2.id = some j → j ≠ "" →
      (FT.addFlight (FT.addFlight FT.initState (some d1) n1) (some d2) n2).flights.length
        = (if j = i then 1 else 2) := by
  intro d1 d2 i j n1 n2 h1 hi h2 hj
  have e1 : (FT.addFlight FT.initState (some d1) n1).flights = [(i, ⟨d1, n1, n1⟩)] := by
    rw [addFlight_flights_new FT.initState d1 i n1 h1 hi rfl]
    rfl
  by_cases hij : j = i
  · subst hij
    have hlook : alookup (FT.addFlight FT.initState (some d1) n1).flights j
        = some ⟨d1, n1, n1⟩ := by
      rw [e1, alookup_cons, if_pos rfl]
    rw [addFlight_flights_existing _ d2 j n2 _ h2 hj hlook, if_pos rfl,
      mapSet_length_of_isSome]
    · rw [e1]; rfl
    · rw [hlook]; rfl
  · have hlook : alookup (FT.addFlight FT.initState (some d1) n1).flights j = none := by
      rw [e1, alookup_cons, if_neg (fun he => hij he.symm)]
      rfl
    rw [addFlight_flights_new _ d2 j n2 h2 hj hlook, if_neg hij, e1]
    rfl

/-- Witness for C4: the two cross-source detections of the same aircraft
carry different provider ids, so two tracks result. -/
theorem two_detections_track_count_witness :
    (FT.addFlight (FT.addFlight FT.initState (some detA) 0) (some detB) 1000).flights.length
      = (if "ADSB7" = "OSKY1" then 1 else 2) :=
  two_detections_track_count detA detB "OSKY1" "ADSB7" 0 1000 rfl (by decide) rfl (by decide)

/-- Counterexample for C4: one physical aircraft reported by two sources
one second apart, 0.001° apart, with matching callsigns but different
provider-native identifiers, yields two Tracks after combination and
ingestion — not one. -/
theorem same_aircraft_two_sources_two_tracks :
    (FT.ingest FT.initState (DSMgr.getCombinedFlights [some [detA], some [detB]]) 1000).flights.length
      = 2 := by decide

/-- C5: every Track whose `lastUpdate` is older than the 5-minute TTL is
absent from the flights map (hence from `all()`) after the next eviction
sweep. -/
theorem stale_track_absent_after_sweep :
    ∀ (st : FT.TrackerState) (i : String) (f : FT.FlightRec) (now : Int),
      alookup st.flights i = some f → now - f.lastUpdate > 300000 →
      alookup (FT.updateFlightPositions st now).flights i = none
      ∧ ∀ p ∈ (FT.updateFlightPositions st now).flights, p.1 ≠ i := by
  intro st i f now hl hs
  have hmem : i ∈ (st.flights.filter (fun p => decide (now - p.2.lastUpdate > 300000))).map
      (fun p => p.1) := by
    refine List.mem_map.mpr ⟨(i, f), ?_, rfl⟩
    refine List.mem_filter.mpr ⟨alookup_mem hl, ?_⟩
    simpa using hs
  have h1 : alookup (FT.updateFlightPositions st now).flights i = none := by
    simp only [FT.updateFlightPositions]
    rw [foldl_removeFlight_flights, if_pos hmem]
  exact ⟨h1, (alookup_eq_none_iff _ _).mp h1⟩

/-- Witness for C5: a track last updated at time 0 is gone after a sweep
at 300001 ms. -/
theorem stale_track_absent_after_sweep_witness :
    alookup (FT.updateFlightPositions staleState 300001).flights "ST1" = none
    ∧ ∀ p ∈ (FT.updateFlightPositions staleState 300001).flights, p.1 ≠ "ST1" :=
  stale_track_absent_after_sweep staleState "ST1" staleRec 300001 rfl (by decide)

/-- C6 (amended): per-track history is capped at the constructor's
`maxHistoryLength` of 1000 entries across any sequence of `addFlight`
operations from a fresh tracker, and an insertion into a history at the
cap evicts the oldest entry first (ring-buffer semantics). -/
theorem history_ring_buffer_1000 :
    (∀ (ops : List (Option FlightData × Int)) (i : String) (h : List FT.Position),
       alookup ((ops.foldl (fun s p => FT.addFlight s p.1 p.2) FT.initState).flightHistory) i
         = some h → h.length ≤ 1000)
    ∧ (∀ (st : FT.TrackerState) (i : String) (d : FlightData) (now : Int) (h : List FT.Position),
       alookup st.flightHistory i = some h → h.length = st.maxHistoryLength →
       0 < st.maxHistoryLength →
       alookup ((FT.addToHistory st i d now).flightHistory) i
         = some (h.drop 1 ++ [⟨d.latitude, d.longitude, d.altitude, d.speed, d.heading, now⟩])) := by
  constructor
  · intro ops i h hl
    have hb : ∀ k h0, alookup FT.initState.flightHistory k = some h0 →
        h0.length ≤ FT.initState.maxHistoryLength := by
      intro k h0 hk
      simp [FT.initState, alookup] at hk
    exact foldl_addFlight_hist_bound ops FT.initState hb i h hl
  · intro st i d now h hl hlen hpos
    unfold FT.addToHistory
    rw [hl]
    have hgt : (h ++ [(⟨d.latitude, d.longitude, d.altitude, d.speed, d.heading, now⟩ :
        FT.Position)]).length > st.maxHistoryLength := by
      simp only [List.length_append, List.length_singleton, hlen]
      omega
    simp only [if_pos hgt, alookup_mapSet, if_pos rfl]
    rw [List.drop_append_eq_append_drop]
    have h0 : 1 - h.length = 0 := by omega
    rw [h0]
    rfl

/-- Witness for C6: a history at cap 1 receives a new position; the old
position is evicted and the new one kept. -/
theorem history_ring_buffer_1000_witness :
    alookup ((FT.addToHistory stCap "K" capFlightData 5).flightHistory) "K"
      = some ([capPos].drop 1 ++ [⟨capFlightData.latitude, capFlightData.longitude,
          capFlightData.altitude, capFlightData.speed, capFlightData.heading, 5⟩]) :=
  history_ring_buffer_1000.2 stCap "K" capFlightData 5 [capPos] rfl (by decide) (by decide)

set_option maxRecDepth 40000

/-- Counterexample for C6: after 101 insertions for one track the history
holds 101 entries, exceeding the claimed default cap of 100. -/
theorem history_exceeds_100_cap :
    (alookup capState101.flightHistory "H1").map (fun h => h.length) = some 101
    ∧ 100 < 101 := by decide
